import Mathlib

/-!
Verification of the sandboxed artifact-store tool, the knowledge-lookup
configuration, the agent loop and the presentation-shell banner of the
AgenteStreamlit application (src/app.py), as a shallow embedding over
Lean lists of characters (Python strings on a POSIX system).
-/

set_option maxRecDepth 8000

/-- The fixed output directory, `DOWNLOAD_DIR = "downloads"` (app.py line 14). -/
def DOWNLOAD_DIR : List Char := "downloads".data

/-- The default filename substituted for an empty sanitization result
(app.py line 37). -/
def default_filename : List Char := "resultado_agente.txt".data

/-- The ASCII apostrophe character, used in the success message. -/
def quoteChar : Char := Char.ofNat 39

/-- Left part of the success message of save_to_file (app.py line 44),
up to and including the opening quote around the sanitized filename. -/
def exito_msg_left : List Char :=
  "Éxito: Archivo guardado como ".data ++ [quoteChar]

/-- Right part of the success message of save_to_file (app.py line 44),
from the closing quote around the sanitized filename. -/
def exito_msg_right : List Char :=
  [quoteChar] ++ " en el directorio de descargas.".data

/-- Head of the error message of save_to_file (app.py line 46). -/
def error_msg_head : List Char :=
  "Error crítico al guardar el archivo: ".data

/-- POSIX `os.path.basename`: the suffix of the path after its last slash
(the Python implementation returns `p[p.rfind(sep)+1:]`). -/
def basename : List Char → List Char
  | [] => []
  | c :: rest =>
    if ('/' : Char) ∈ rest then basename rest
    else if c = '/' then rest else c :: rest

/-- POSIX `os.path.join` for two components: an absolute second component
replaces the first; otherwise the parts are joined, inserting a slash
unless the first part is empty or already ends with one. -/
def os_path_join (a b : List Char) : List Char :=
  if b.head? = some '/' then b
  else if a = [] ∨ a.getLast? = some '/' then a ++ b
  else a ++ '/' :: b

/-- Lines 35 to 37 of app.py: `safe_filename = os.path.basename(filename)`,
replaced by the default name when empty. -/
def safe_filename (filename : List Char) : List Char :=
  let safe := basename filename
  if safe = [] then default_filename else safe

/-- The path save_to_file writes to (app.py line 39):
`os.path.join(DOWNLOAD_DIR, safe_filename)`. -/
def file_path (filename : List Char) : List Char :=
  os_path_join DOWNLOAD_DIR (safe_filename filename)

/-- The filesystem inside the sandbox, as an association list from path
to file content. -/
abbrev FS := List (List Char × List Char)

/-- Opening a path in mode "w" and writing `c`: truncates (overwrites) an
existing file at that path, or creates the file. -/
def setFile : FS → List Char → List Char → FS
  | [], p, c => [(p, c)]
  | (q, d) :: rest, p, c =>
    if q = p then (p, c) :: rest else (q, d) :: setFile rest p c

/-- Reading the content stored at a path, if any. -/
def getFile : FS → List Char → Option (List Char)
  | [], _ => none
  | (q, d) :: rest, p => if q = p then some d else getFile rest p

/-- The body of save_to_file inside the `try` block (app.py lines 34 to 44).
`writeErr` is the outcome of the underlying `open`/`write` call: `some e`
means the filesystem layer raised an exception with message `e` (disk
full, permission denied, a directory at the target path, an embedded null
byte, ...); `none` means the write succeeded. -/
def save_to_file_body (writeErr : Option (List Char)) (fs : FS)
    (content filename : List Char) : Except (List Char) (FS × List Char) :=
  let safe := safe_filename filename
  let path := os_path_join DOWNLOAD_DIR safe
  match writeErr with
  | some e => .error e
  | none =>
    .ok (setFile fs path content, exito_msg_left ++ safe ++ exito_msg_right)

/-- app.py lines 33 to 46: the whole save_to_file tool, with the
`except Exception` handler turning any raised exception into an error
string and leaving the filesystem as it was. -/
def save_to_file (writeErr : Option (List Char)) (fs : FS)
    (content filename : List Char) : FS × List Char :=
  match save_to_file_body writeErr fs content filename with
  | .ok r => r
  | .error e => (fs, error_msg_head ++ e)

-- Helper lemmas about basename and the filesystem model.

theorem basename_no_slash : ∀ p : List Char, '/' ∉ basename p
  | [] => by simp [basename]
  | c :: rest => by
    by_cases h : ('/' : Char) ∈ rest
    · simpa [basename, h] using basename_no_slash rest
    · by_cases hc : c = '/'
      · simp [basename, h, hc]
      · simp [basename, h, hc]
        exact fun habs => hc habs.symm

theorem safe_filename_ne_nil (filename : List Char) :
    safe_filename filename ≠ [] := by
  unfold safe_filename
  by_cases h : basename filename = []
  · simp [h, default_filename]
  · simp [h]

theorem safe_filename_no_slash (filename : List Char) :
    '/' ∉ safe_filename filename := by
  unfold safe_filename
  by_cases h : basename filename = []
  · simp [h, default_filename]
  · simpa [h] using basename_no_slash filename

theorem getFile_setFile_same (fs : FS) (p c : List Char) :
    getFile (setFile fs p c) p = some c := by
  induction fs with
  | nil => simp [setFile, getFile]
  | cons hd tl ih =>
    obtain ⟨q, d⟩ := hd
    by_cases h : q = p
    · simp [setFile, getFile, h]
    · simp [setFile, getFile, h, ih]

theorem getFile_setFile_ne (fs : FS) (p q c : List Char) (h : p ≠ q) :
    getFile (setFile fs q c) p = getFile fs p := by
  have hqp : q ≠ p := Ne.symm h
  induction fs with
  | nil => simp [setFile, getFile, hqp]
  | cons hd tl ih =>
    obtain ⟨r, d⟩ := hd
    by_cases hr : r = q
    · subst hr
      simp [setFile, getFile, hqp]
    · by_cases hp : r = p
      · simp [setFile, getFile, hr, hp, h]
      · simp [setFile, getFile, hr, hp, ih]

theorem setFile_idem (fs : FS) (p c : List Char) :
    setFile (setFile fs p c) p c = setFile fs p c := by
  induction fs with
  | nil => simp [setFile]
  | cons hd tl ih =>
    obtain ⟨q, d⟩ := hd
    by_cases h : q = p
    · simp [setFile, h]
    · simp [setFile, h, ih]

-- The knowledge-lookup tool (app.py lines 50 to 51).

/-- `top_k_results=1` in the WikipediaAPIWrapper configuration
(app.py line 50). -/
def top_k_results : Nat := 1

/-- `doc_content_chars_max=2000` in the WikipediaAPIWrapper configuration
(app.py line 50). -/
def doc_content_chars_max : Nat := 2000

/-- The fixed text the wrapper returns when no entry matches. -/
def no_wiki_results : List Char :=
  "No good Wikipedia Search Result was found".data

/-- Modelled from the spec: the Knowledge Lookup Tool (`WikipediaQueryRun`
over `WikipediaAPIWrapper`, whose body lives in the langchain_community
library, outside this repository). `index` is the external encyclopedic
index, returning the ranked matching entries for a query. The tool keeps
the single best entry (`top_k_results = 1`), truncates its content to
`doc_content_chars_max` characters and returns the truncated text, or a
descriptive no-results string when nothing matches. -/
def wikipedia_run (index : List Char → List (List Char))
    (query : List Char) : List Char :=
  match (index query).take top_k_results with
  | [] => no_wiki_results
  | doc :: _ => doc.take doc_content_chars_max

-- The agent loop (app.py line 80 configures the langchain AgentExecutor;
-- the loop body itself lives outside this repository and is modelled
-- from the spec).

/-- Modelled from the spec: an AgentDecision is either a tool invocation
request or a final answer. -/
inductive AgentDecision
  | Invoke (tool_name : List Char) (arguments : List Char)
  | Finish (answer : List Char)

/-- The per-request scratchpad: an ordered list of (action, observation)
pairs. -/
abbrev Scratchpad := List (List Char × List Char)

/-- A tool registry: names paired with callables from argument text to
result text. -/
abbrev ToolRegistry := List (List Char × (List Char → List Char))

/-- Exact-match lookup of a tool by name in the registry. -/
def lookup_tool : ToolRegistry → List Char → Option (List Char → List Char)
  | [], _ => none
  | (n, f) :: rest, name => if n = name then some f else lookup_tool rest name

/-- The fallback answer returned when the iteration cap is exhausted. -/
def could_not_complete : List Char :=
  "Agent stopped: could not complete the request within the iteration limit.".data

/-- The corrective observation injected when the raw model output cannot
be parsed into a valid AgentDecision. -/
def parse_error_obs : List Char :=
  "could not parse the previous action".data

/-- The placeholder action recorded with a parse-error observation. -/
def unparseable_action : List Char := "(unparseable output)".data

/-- The synthetic error observation appended when the requested tool name
is not registered. -/
def unknown_tool_obs (name : List Char) : List Char :=
  name ++ " is not a registered tool".data

/-- Modelled from the spec: the Agent Loop of the AgentExecutor
(configured in app.py line 80 with handle_parsing_errors=True; the loop
body lives in the langchain library, outside this repository). The
adapter returns `none` when its raw output cannot be parsed into an
AgentDecision. The Nat argument is the remaining iteration budget: each
Decide step consumes one unit, and an exhausted budget yields the
fallback answer. -/
def agent_loop (adapter : Scratchpad → Option AgentDecision)
    (tools : ToolRegistry) : Nat → Scratchpad → List Char
  | 0, _ => could_not_complete
  | n + 1, scratch =>
    match adapter scratch with
    | none =>
      agent_loop adapter tools n (scratch ++ [(unparseable_action, parse_error_obs)])
    | some (.Finish answer) => answer
    | some (.Invoke name args) =>
      match lookup_tool tools name with
      | none =>
        agent_loop adapter tools n (scratch ++ [(name, unknown_tool_obs name)])
      | some f =>
        agent_loop adapter tools n (scratch ++ [(name, f args)])

-- The presentation-shell banner (app.py lines 136 to 140).

/-- Python str.lower on each character. -/
def toLowerList (s : List Char) : List Char := s.map Char.toLower

/-- The Python `in` operator on strings: `needle` occurs contiguously in
`hay`. -/
def isSubstring : List Char → List Char → Bool
  | n, [] => n.isEmpty
  | n, c :: rest => n.isPrefixOf (c :: rest) || isSubstring n rest

/-- app.py lines 136 to 140: the saved-file banner is shown when the
final answer lowercased contains "guardado", the download directory
exists, and its listing is non-empty. `dir_exists` is the result of
os.path.exists(DOWNLOAD_DIR) and `files` the result of
os.listdir(DOWNLOAD_DIR). -/
def banner_shown (output_text : List Char) (dir_exists : Bool)
    (files : List (List Char)) : Bool :=
  isSubstring "guardado".data (toLowerList output_text) &&
    (dir_exists && !files.isEmpty)

-- Further helper lemmas.

theorem file_path_eq (filename : List Char) :
    file_path filename = DOWNLOAD_DIR ++ '/' :: safe_filename filename := by
  unfold file_path os_path_join
  have h1 : '/' ∉ safe_filename filename := safe_filename_no_slash filename
  have h2 : ¬ (safe_filename filename).head? = some '/' := by
    cases hsf : safe_filename filename with
    | nil => simp
    | cons c rest =>
      simp only [List.head?]
      intro habs
      apply h1
      rw [hsf]
      have hc : c = '/' := by simpa using habs
      simp [hc]
  rw [if_neg h2, if_neg (by decide :
    ¬ (DOWNLOAD_DIR = [] ∨ DOWNLOAD_DIR.getLast? = some '/'))]

theorem basename_nil_of_last_slash :
    ∀ p : List Char, p.getLast? = some '/' → basename p = []
  | [], h => by simp at h
  | c :: rest, h => by
    by_cases hr : ('/' : Char) ∈ rest
    · have hne : rest ≠ [] := by
        intro habs
        rw [habs] at hr
        simp at hr
      have hlast : rest.getLast? = some '/' := by
        cases rest with
        | nil => exact absurd rfl hne
        | cons d ds => simpa using h
      simp [basename, hr, basename_nil_of_last_slash rest hlast]
    · cases rest with
      | nil =>
        have hc : c = '/' := by simpa using h
        simp [basename, hc]
      | cons d ds =>
        have hlast : (d :: ds).getLast? = some '/' := by simpa using h
        exact absurd (List.mem_of_getLast?_eq_some hlast) hr

theorem save_to_file_ok (fs : FS) (content filename : List Char) :
    save_to_file none fs content filename =
      (setFile fs (file_path filename) content,
        exito_msg_left ++ safe_filename filename ++ exito_msg_right) := by
  simp [save_to_file, save_to_file_body, file_path]

theorem save_to_file_err (e : List Char) (fs : FS) (content filename : List Char) :
    save_to_file (some e) fs content filename = (fs, error_msg_head ++ e) := by
  simp [save_to_file, save_to_file_body]

-- Claim theorems.

/-- Claim C1: for every filename passed to save_to_file — including the
empty string, traversal strings and absolute paths — the resolved path is
the fixed output directory followed by a slash and a single nonempty
component without separators, so it starts with the output-directory
prefix; and any cell of the filesystem changed by save_to_file has a path
starting with that prefix. -/
theorem C1_path_confined (filename : List Char) :
    (∃ safe, file_path filename = DOWNLOAD_DIR ++ '/' :: safe ∧
      safe ≠ [] ∧ '/' ∉ safe) ∧
    ∀ (writeErr : Option (List Char)) (fs : FS) (content p : List Char),
      getFile (save_to_file writeErr fs content filename).1 p ≠ getFile fs p →
      (DOWNLOAD_DIR ++ ['/']) <+: p := by
  constructor
  · exact ⟨safe_filename filename, file_path_eq filename,
      safe_filename_ne_nil filename, safe_filename_no_slash filename⟩
  · intro writeErr fs content p hchg
    cases writeErr with
    | some e => rw [save_to_file_err] at hchg; exact absurd rfl hchg
    | none =>
      rw [save_to_file_ok] at hchg
      have hp : p = file_path filename := by
        by_contra habs
        exact hchg (getFile_setFile_ne fs p (file_path filename) content habs)
      refine ⟨safe_filename filename, ?_⟩
      rw [hp, file_path_eq]
      simp

/-- Witness for C1 at the traversal input "../../etc/passwd": the one
path whose content changes starts with the output-directory prefix. -/
theorem C1_witness :
    (DOWNLOAD_DIR ++ ['/']) <+: file_path "../../etc/passwd".data :=
  (C1_path_confined "../../etc/passwd".data).2 none [] "x".data
    (file_path "../../etc/passwd".data) (by decide)

/-- Claim C2 as stated is false on the code: the path-only filename "."
is not replaced by the default filename — os.path.basename keeps "." as
is, so the tool resolves it to the directory entry "downloads/." itself
(where a write fails with an error string), not to the default name. -/
theorem C2_counterexample :
    safe_filename ".".data ≠ default_filename ∧
    safe_filename ".".data = ".".data ∧
    file_path ".".data = "downloads/.".data := by
  refine ⟨by decide, by decide, by decide⟩

/-- Claim C2 (amended): for every filename that is empty or ends in a
separator — which covers the spec examples "" and "/" but not "." — the
tool resolves it to the default filename, and a successful call returns
the success message naming the default filename. -/
theorem C2_amended_default (filename : List Char)
    (h : filename = [] ∨ filename.getLast? = some '/') :
    safe_filename filename = default_filename ∧
    ∀ fs content, (save_to_file none fs content filename).2 =
      exito_msg_left ++ default_filename ++ exito_msg_right := by
  have hb : basename filename = [] := by
    rcases h with h | h
    · simp [h, basename]
    · exact basename_nil_of_last_slash filename h
  have hsafe : safe_filename filename = default_filename := by
    simp [safe_filename, hb]
  refine ⟨hsafe, fun fs content => ?_⟩
  rw [save_to_file_ok, hsafe]

/-- Witness for C2 (amended) at the path-only filename "/". -/
theorem C2_witness :
    safe_filename "/".data = default_filename ∧
    ∀ fs content, (save_to_file none fs content "/".data).2 =
      exito_msg_left ++ default_filename ++ exito_msg_right :=
  C2_amended_default "/".data (by decide)

/-- Claim C3: save_to_file overwrites rather than appends — saving c1
then c2 under the same filename leaves the file at the sanitized path
containing exactly c2. -/
theorem C3_overwrite (fs : FS) (c1 c2 filename : List Char) :
    getFile
      (save_to_file none (save_to_file none fs c1 filename).1 c2 filename).1
      (file_path filename) = some c2 := by
  rw [save_to_file_ok, save_to_file_ok]
  exact getFile_setFile_same _ _ _

/-- Claim C4: save_to_file never raises — for every input pair and every
lower-level write outcome it returns a string, either the success message
or an error-description message. -/
theorem C4_no_raise (writeErr : Option (List Char)) (fs : FS)
    (content filename : List Char) :
    (save_to_file writeErr fs content filename).2 =
      exito_msg_left ++ safe_filename filename ++ exito_msg_right ∨
    ∃ e, writeErr = some e ∧
      (save_to_file writeErr fs content filename).2 = error_msg_head ++ e := by
  cases writeErr with
  | none =>
    left
    rw [save_to_file_ok]
  | some e =>
    right
    exact ⟨e, rfl, by rw [save_to_file_err]⟩

/-- Claim C5: the success message names the post-sanitization filename,
framed by the fixed text mentioning the download directory; for the
traversal request "../../etc/passwd" the message names "passwd" and does
not contain the raw requested filename. -/
theorem C5_success_message :
    (∀ fs content filename, (save_to_file none fs content filename).2 =
        exito_msg_left ++ safe_filename filename ++ exito_msg_right) ∧
    (save_to_file none [] "resumen".data "../../etc/passwd".data).2 =
      exito_msg_left ++ "passwd".data ++ exito_msg_right ∧
    isSubstring "../../etc/passwd".data
      (save_to_file none [] "resumen".data "../../etc/passwd".data).2 = false := by
  refine ⟨fun fs content filename => by rw [save_to_file_ok], by decide, by decide⟩

/-- Claim C6: the knowledge-lookup tool is configured with a single best
entry (top_k_results = 1), so its answer is determined by the head of the
ranked results, and for every index and query the returned text length
never exceeds the doc_content_chars_max budget of 2000 characters. -/
theorem C6_lookup_bounded (index : List Char → List (List Char))
    (query : List Char) :
    (wikipedia_run index query).length ≤ doc_content_chars_max ∧
    wikipedia_run index query =
      (match (index query).head? with
        | none => no_wiki_results
        | some doc => doc.take doc_content_chars_max) := by
  have hrun : wikipedia_run index query =
      (match (index query).head? with
        | none => no_wiki_results
        | some doc => doc.take doc_content_chars_max) := by
    cases hq : index query with
    | nil => simp [wikipedia_run, hq, top_k_results]
    | cons doc rest => simp [wikipedia_run, hq, top_k_results]
  refine ⟨?_, hrun⟩
  rw [hrun]
  cases hq : (index query).head? with
  | none => decide
  | some doc => simp [List.length_take_le]

/-- Claim C7: the agent loop enforces an explicit iteration cap — for
every adapter that never returns Finish (including one that keeps
requesting an unregistered tool), the loop terminates with the defined
could-not-complete fallback answer once the budget is exhausted. -/
theorem C7_iteration_cap (adapter : Scratchpad → Option AgentDecision)
    (tools : ToolRegistry) (cap : Nat) (scratch : Scratchpad)
    (h : ∀ s a, adapter s ≠ some (AgentDecision.Finish a)) :
    agent_loop adapter tools cap scratch = could_not_complete := by
  induction cap generalizing scratch with
  | zero => rfl
  | succ n ih =>
    unfold agent_loop
    cases hd : adapter scratch with
    | none => exact ih _
    | some d =>
      cases d with
      | Finish a => exact absurd hd (h scratch a)
      | Invoke name args =>
        cases hl : lookup_tool tools name with
        | none => simp [hl, ih]
        | some f => simp [hl, ih]

/-- Witness for C7: a stub adapter that always requests the unregistered
tool name "herramienta_inexistente" against an empty registry makes the
loop return the fallback answer within a budget of 15 iterations. -/
theorem C7_witness :
    agent_loop
      (fun _ => some (AgentDecision.Invoke "herramienta_inexistente".data []))
      [] 15 [] = could_not_complete :=
  C7_iteration_cap
    (fun _ => some (AgentDecision.Invoke "herramienta_inexistente".data []))
    [] 15 []
    (fun _ _ habs => AgentDecision.noConfusion (Option.some.inj habs))

/-- Claim C8: when the adapter output cannot be parsed into an
AgentDecision, the loop does not crash — it appends the corrective
parse-error observation to the scratchpad and keeps deciding within the
remaining iteration budget. -/
theorem C8_parse_recovery (adapter : Scratchpad → Option AgentDecision)
    (tools : ToolRegistry) (n : Nat) (scratch : Scratchpad)
    (h : adapter scratch = none) :
    agent_loop adapter tools (n + 1) scratch =
      agent_loop adapter tools n
        (scratch ++ [(unparseable_action, parse_error_obs)]) := by
  conv_lhs => rw [agent_loop]
  rw [h]

/-- Witness for C8: an adapter whose output never parses makes one loop
step equal to a retry on the extended scratchpad. -/
theorem C8_witness :
    agent_loop (fun _ => none) [] 1 [] =
      agent_loop (fun _ => none) [] 0
        ([] ++ [(unparseable_action, parse_error_obs)]) :=
  C8_parse_recovery (fun _ => none) [] 0 [] rfl

/-- Claim C9: save_to_file is idempotent — running it twice with the same
arguments and the same write outcome leaves the filesystem exactly as one
run does, and both runs return the same result string. -/
theorem C9_idempotent (writeErr : Option (List Char)) (fs : FS)
    (content filename : List Char) :
    (save_to_file writeErr (save_to_file writeErr fs content filename).1
        content filename).1 =
      (save_to_file writeErr fs content filename).1 ∧
    (save_to_file writeErr (save_to_file writeErr fs content filename).1
        content filename).2 =
      (save_to_file writeErr fs content filename).2 := by
  cases writeErr with
  | none => simp [save_to_file_ok, setFile_idem]
  | some e => simp [save_to_file_err]

/-- Claim C10: the saved-file banner is shown exactly when the final
answer lowercased contains "guardado", the output directory exists, and
its listing is non-empty; an English answer saying "saved" never shows
it, while a capitalized "Guardado" does. -/
theorem C10_banner_iff :
    (∀ (output_text : List Char) (dir_exists : Bool)
        (files : List (List Char)),
      banner_shown output_text dir_exists files = true ↔
        (isSubstring "guardado".data (toLowerList output_text) = true ∧
          dir_exists = true ∧ files ≠ [])) ∧
    banner_shown "He saved the file as notas.txt".data true
      ["notas.txt".data] = false ∧
    banner_shown "Archivo Guardado correctamente.".data true
      ["notas.txt".data] = true := by
  refine ⟨fun o d f => ?_, by decide, by decide⟩
  simp [banner_shown, and_assoc]
